import Mathlib

/-!
Shallow embedding of the polars-mas association pipeline
(src/polars_mas: analysis.py, mas.py, pipeline.py, config.py).

Modelling conventions:
* A task's projected frame (`select([predictor, dependent, *covariates])`)
  is a list of rows; each row carries the predictor cell, the dependent
  cell and the covariate cells, all nullable (`Option Int`).
* Python dicts (the `output_schema` result rows) are association lists
  `List (String × FieldVal)` with Python `dict.update` semantics: an
  existing key is overwritten in place, a new key is appended at the end.
* Float sentinels: `FieldVal.fnan` stands for `float("nan")`; a real float
  value is `FieldVal.fval q` with a rational payload (the numeric values
  themselves are irrelevant to the claims, only NaN-ness and order).
* Polars semantics used: `sum` over a column skips nulls; `n_unique`
  counts null as one distinct value; `drop_nulls(cols)` removes the rows
  with a null in one of `cols`; `Expr.drop_nulls().unique().len()` counts
  distinct non-null values; `DataFrame.sort(key)` with the default
  `maintain_order=False` guarantees only a permutation of the input that
  is non-decreasing in the key, with `NaN` greater than every float.
* Solver calls (`firth_regression` etc., models.py) are modelled as a
  function returning `Except String RegResult`: `.error msg` is the
  Python exception caught by `_run_single_association`'s `try/except`.
-/

/-- A value stored in a result-row dict: a string, a float (NaN sentinel or
real value), an integer, or a boolean. -/
inductive FieldVal where
  | str : String → FieldVal
  | fnan : FieldVal
  | fval : ℚ → FieldVal
  | int : Int → FieldVal
  | bool : Bool → FieldVal
deriving DecidableEq

/-- Result-row dicts are ordered association lists, like Python dicts. -/
abbrev Dict := List (String × FieldVal)

/-- Setting one key in a Python dict: overwrite in place if present,
append at the end otherwise. -/
def dictSet : Dict → String → FieldVal → Dict
  | [], k, v => [(k, v)]
  | (k', v') :: rest, k, v =>
      if k' = k then (k, v) :: rest else (k', v') :: dictSet rest k v

/-- Python `d.update(new)`: fold `dictSet` over the new pairs. -/
def dictUpdate (d : Dict) (new : Dict) : Dict :=
  new.foldl (fun acc kv => dictSet acc kv.1 kv.2) d

/-- Python `d[k]` as an option. -/
def dictGet (d : Dict) (k : String) : Option FieldVal :=
  (d.find? (fun kv => kv.1 = k)).map (·.2)

/-- Python `d.get(k, default)`. -/
def dictGetD (d : Dict) (k : String) (dflt : FieldVal) : FieldVal :=
  (dictGet d k).getD dflt

/-- Python `list(d.keys())`. -/
def dictKeys (d : Dict) : List String := d.map (·.1)

theorem dictGet_set_self (d : Dict) (k : String) (v : FieldVal) :
    dictGet (dictSet d k v) k = some v := by
  induction d with
  | nil => simp [dictSet, dictGet, List.find?]
  | cons hd tl ih =>
      by_cases h : hd.1 = k
      · simp [dictSet, h, dictGet, List.find?]
      · simp only [dictSet]
        rw [if_neg h]
        simpa [dictGet, List.find?, h] using ih

theorem dictGet_set_ne (d : Dict) (k k' : String) (v : FieldVal) (h : k ≠ k') :
    dictGet (dictSet d k v) k' = dictGet d k' := by
  induction d with
  | nil => simp [dictSet, dictGet, List.find?, h]
  | cons hd tl ih =>
      by_cases hh : hd.1 = k
      · simp [dictSet, hh, dictGet, List.find?, h, Ne.symm h]
      · simp only [dictSet]
        rw [if_neg hh]
        by_cases hk' : hd.1 = k'
        · simp [dictGet, List.find?, hk']
        · simpa [dictGet, List.find?, hk'] using ih

/-- A cell of the projected frame: nullable integer-coded value. -/
abbrev Cell := Option Int

/-- One row of the per-task projection `[predictor, dependent, *covariates]`. -/
structure TRow where
  pred : Cell
  dep : Cell
  covs : List Cell
deriving DecidableEq

/-- The per-task projected frame, with the covariate column names. -/
structure TaskFrame where
  covNames : List String
  rows : List TRow
deriving DecidableEq

/-- Polars `df.height`. -/
def TaskFrame.height (f : TaskFrame) : Nat := f.rows.length

/-- Polars `df.drop_nulls([predictor, dependent])`: keep rows whose predictor
and dependent cells are both non-null. -/
def dropNullsPD (f : TaskFrame) : TaskFrame :=
  { f with rows := f.rows.filter (fun r => r.pred.isSome && r.dep.isSome) }

/-- The dependent column sum `pl.col(dependent).sum()`; polars skips nulls. -/
def caseCountOf (f : TaskFrame) : Int :=
  (f.rows.map (fun r => r.dep.getD 0)).sum

/-- The `i`-th covariate column of the frame. -/
def covColumn (f : TaskFrame) (i : Nat) : List Cell :=
  f.rows.map (fun r => r.covs.getD i none)

/-- Polars `Expr.n_unique()`: the number of distinct values of a column,
counting null as one distinct value. -/
def nUnique (col : List Cell) : Nat := col.dedup.length

/-- Polars `Expr.drop_nulls().unique().len()`: the number of distinct
non-null values of a column (mas.py, `check_for_constants`). -/
def distinctNonNullCount (col : List Cell) : Nat :=
  (col.filterMap id).dedup.length

/-- Embeds `_drop_constant_covariates` (analysis.py lines 204-216): drop
every covariate column whose `n_unique` count is ≤ 1. -/
def drop_constant_covariates (f : TaskFrame) : TaskFrame :=
  let keep := (List.range f.covNames.length).filter
    (fun i => 1 < nUnique (covColumn f i))
  { covNames := keep.map (fun i => f.covNames.getD i ""),
    rows := f.rows.map (fun r => { r with covs := keep.map (fun i => r.covs.getD i none) }) }

/-- The configured regression model. -/
inductive ModelKind where
  | firth | logistic | linear
deriving DecidableEq

/-- Field names of the `pl.Struct` returned by `_get_schema(config)`
(analysis.py lines 219-273, `for_polars=True`). -/
def polarsSchemaKeys : ModelKind → List String
  | .firth | .logistic =>
      ["predictor", "dependent", "pval", "beta", "se", "OR", "ci_low",
       "ci_high", "cases", "controls", "total_n", "converged",
       "failed_reason", "equation"]
  | .linear =>
      ["predictor", "dependent", "pval", "beta", "se", "ci_low", "ci_high",
       "n_observations", "converged", "failed_reason", "equation"]

/-- The sentinel-filled default dict returned by
`_get_schema(config, for_polars=False)` (analysis.py lines 240-256 for the
binary models and 274-287 for the linear model). -/
def default_schema : ModelKind → Dict
  | .firth | .logistic =>
      [("predictor", .str "nan"), ("dependent", .str "nan"),
       ("pval", .fnan), ("beta", .fnan), ("se", .fnan), ("OR", .fnan),
       ("ci_low", .fnan), ("ci_high", .fnan), ("cases", .int (-9)),
       ("controls", .int (-9)), ("total_n", .int (-9)),
       ("converged", .bool false), ("failed_reason", .str "nan"),
       ("equation", .str "nan")]
  | .linear =>
      [("predictor", .str "nan"), ("dependent", .str "nan"),
       ("pval", .fnan), ("beta", .fnan), ("se", .fnan),
       ("ci_low", .fnan), ("ci_high", .fnan), ("cases", .int (-9)),
       ("converged", .bool false), ("failed_reason", .str "nan"),
       ("equation", .str "nan")]

example : dictGet (dictSet [("a", .fnan)] "a" (.int 3)) "a" = some (.int 3) := by decide
example : dictKeys (default_schema .linear) ≠ polarsSchemaKeys .linear := by decide

/-- The 5-tuple returned by `_check_case_counts` (analysis.py lines
176-201), written with named fields. -/
structure CaseCountResult where
  viable : Bool
  message : String
  case_count : Int
  controls_count : Int
  total_n : Int
deriving DecidableEq

/-- Embeds `_check_case_counts` (analysis.py lines 176-201): count cases as
the sum of the dependent column and controls as rows minus cases, then
test the minimum-count requirements in order. -/
def check_case_counts (f : TaskFrame) (min_case_count : Int) : CaseCountResult :=
  let n_rows : Int := f.height
  let case_count : Int := caseCountOf f
  let controls_count : Int := n_rows - case_count
  if case_count < min_case_count then
    ⟨false, s!"Insufficient case count ({case_count} cases).",
      case_count, controls_count, n_rows⟩
  else if controls_count < min_case_count then
    ⟨false, s!"Insufficient control count ({controls_count} controls).",
      case_count, controls_count, n_rows⟩
  else if case_count = n_rows then
    ⟨false, "All observations are cases.", case_count, controls_count, n_rows⟩
  else
    ⟨true, "", case_count, controls_count, n_rows⟩

/-- The configuration fields `_validate_data_structure` and
`_run_single_association` read: `quantitative`, `min_case_count` and the
selected model. -/
structure AnalysisConfig where
  quantitative : Bool
  min_case_count : Int
  model : ModelKind
deriving DecidableEq

/-- Embeds `_validate_data_structure` (analysis.py lines 120-174): update
the default output dict with either a `failed_reason` (empty data,
non-viable case counts, too few observations) or the computed counts. -/
def validate_data_structure (data : TaskFrame) (predictor dependent : String)
    (config : AnalysisConfig) (output_schema : Dict) : Dict :=
  if data.height = 0 then
    dictUpdate output_schema
      [("predictor", .str predictor), ("dependent", .str dependent),
       ("failed_reason", .str "No data after dropping nulls.")]
  else if ¬config.quantitative then
    let res := check_case_counts data config.min_case_count
    if ¬res.viable then
      dictUpdate output_schema
        [("predictor", .str predictor), ("dependent", .str dependent),
         ("failed_reason", .str res.message)]
    else
      dictUpdate output_schema
        [("cases", .int res.case_count), ("controls", .int res.controls_count),
         ("total_n", .int res.total_n)]
  else
    if (data.height : Int) < config.min_case_count then
      dictUpdate output_schema
        [("predictor", .str predictor), ("dependent", .str dependent),
         ("failed_reason", .str s!"Not enough observations ({data.height}).")]
    else
      dictUpdate output_schema [("n_observations", .int data.height)]

/-- The dict a regression function from models.py returns:
`{pval, beta, se, (OR,) ci_low, ci_high}`, with `OR` present exactly for
the binary models (`np.e ** beta`). -/
structure RegResult where
  pval : ℚ
  beta : ℚ
  se : ℚ
  orVal : Option ℚ
  ci_low : ℚ
  ci_high : ℚ
deriving DecidableEq

/-- The result dict of a regression function, as merged by
`output_schema.update({..., **results})`. -/
def regResultDict (r : RegResult) : Dict :=
  [("pval", .fval r.pval), ("beta", .fval r.beta), ("se", .fval r.se)] ++
    (match r.orVal with
     | some q => [("OR", .fval q)]
     | none => []) ++
    [("ci_low", .fval r.ci_low), ("ci_high", .fval r.ci_high)]

/-- The equation string of analysis.py line 93:
`f"{dependent} ~ {predictor} + {' + '.join(covariates)}"`. -/
def equationOf (predictor dependent : String) (covariates : List String) : String :=
  let joined := String.intercalate " + " covariates
  s!"{dependent} ~ {predictor} + {joined}"

/-- Embeds `_run_single_association` (analysis.py lines 74-117).  The
solver (`firth_regression` / `logistic_regression` / `linear_regression`)
is a parameter `reg_func`; a Python exception raised by it is the
`.error` case, caught by the surrounding `try/except`.  Validation is
applied to the incoming frame, then (when no `failed_reason` was set)
nulls in predictor/dependent are dropped, task-locally constant
covariates are pruned, and the solver is invoked; its results or its
exception message are merged into the output dict. -/
def run_single_association (df : TaskFrame) (predictor dependent : String)
    (config : AnalysisConfig) (output_schema : Dict)
    (reg_func : TaskFrame → Except String RegResult) : Dict :=
  let os := validate_data_structure df predictor dependent config output_schema
  if dictGetD os "failed_reason" (.str "nan") ≠ .str "nan" then
    os
  else
    let df1 := dropNullsPD df
    let df2 := drop_constant_covariates df1
    let covariates := df2.covNames
    let equation := equationOf predictor dependent covariates
    match reg_func df2 with
    | .ok results =>
        dictUpdate os
          ([("predictor", .str predictor), ("dependent", .str dependent),
            ("equation", .str equation)] ++ regResultDict results)
    | .error e =>
        dictUpdate os
          [("predictor", .str predictor), ("dependent", .str dependent),
           ("equation", .str equation), ("failed_reason", .str e)]

/-- The task grid of `run_associations` (analysis.py lines 27-31):
the predictor-major, dependent-minor product of the two role lists. -/
def taskGrid (predictors dependents : List String) : List (String × String) :=
  predictors.flatMap (fun p => dependents.map (fun d => (p, d)))

/-- The per-task result rows of `run_associations` in task-generation
order, before the final concatenation and sort: one
`_run_single_association` row per (predictor, dependent) pair.  `frameOf`
gives each task's projected frame (the `lf.select(columns)` of
`_perform_analysis`) and `reg_func` the solver's behaviour on each fitted
design. -/
def run_associations_rows (predictors dependents : List String)
    (frameOf : String → String → TaskFrame) (config : AnalysisConfig)
    (output_schema : Dict)
    (reg_func : TaskFrame → Except String RegResult) : List Dict :=
  (taskGrid predictors dependents).map
    (fun pd => run_single_association (frameOf pd.1 pd.2) pd.1 pd.2 config
      output_schema reg_func)

/-- The p-value sort key of a result row: `some q` for a real float,
`none` when the field holds the `NaN` sentinel (or is absent). -/
def pvalOf (row : Dict) : Option ℚ :=
  match dictGet row "pval" with
  | some (.fval q) => some q
  | _ => none

/-- Polars ascending float comparison on the p-value key: `NaN` compares
greater than every real value (so `NaN` rows sort last). -/
def pvalLeB (a b : Dict) : Bool :=
  match pvalOf a, pvalOf b with
  | some x, some y => x ≤ y
  | some _, none => true
  | none, some _ => false
  | none, none => true

/-- The contract of `DataFrame.sort("pval")` with the default
`maintain_order=False` (analysis.py lines 45-47): the output is some
permutation of the concatenated rows that is non-decreasing in the
p-value key; nothing more (in particular no tie-order guarantee) is
promised. -/
def IsPolarsSortPval (input output : List Dict) : Prop :=
  input.Perm output ∧ output.Pairwise (fun a b => pvalLeB a b = true)

instance (input output : List Dict) : Decidable (IsPolarsSortPval input output) := by
  unfold IsPolarsSortPval
  infer_instance

/-- The mutable role-list arguments `check_for_constants` reads and
rewrites (mas.py): `args.predictors`, `args.covariates`,
`args.dependents`, `args.drop_constants`; `args.selected_columns` is
their concatenation. -/
structure RoleArgs where
  predictors : List String
  covariates : List String
  dependents : List String
  drop_constants : Bool
deriving DecidableEq

/-- Field `args.selected_columns = args.predictors + args.covariates + args.dependents`. -/
def RoleArgs.selected_columns (a : RoleArgs) : List String :=
  a.predictors ++ a.covariates ++ a.dependents

/-- A named-column dataset, for the global preprocessing pass. -/
abbrev NamedData := List (String × List Cell)

/-- Look a column up by name (empty column when absent). -/
def colOf (data : NamedData) (c : String) : List Cell :=
  ((data.find? (fun kv => kv.1 = c)).map (·.2)).getD []

/-- The `const_cols` list of `check_for_constants` (mas.py lines 121-133):
the selected columns whose distinct non-null count equals exactly 1. -/
def constant_columns (data : NamedData) (selected : List String) : List String :=
  selected.filter (fun c => distinctNonNullCount (colOf data c) = 1)

/-- The error message of mas.py line 137, with the offending columns
joined by commas. -/
def constantsErrorMsg (const_cols : List String) : String :=
  let joined := String.intercalate "," const_cols
  s!"Columns {joined} are constant. Please remove them from selection or use --drop-constants."

/-- Embeds `MASFrame.check_for_constants` (mas.py lines 100-142) on the
default path (no `male_only`/`female_only` sex pre-filtering, which is
independent of the constant scan): compute `const_cols`; raise when
nonempty and `drop_constants` is off; otherwise filter every role list.
The function mutates only the role lists — the dataframe itself is not
modified (the method body never drops the columns from `df`). -/
def check_for_constants (data : NamedData) (args : RoleArgs) :
    Except String RoleArgs :=
  let const_cols := constant_columns data args.selected_columns
  if const_cols ≠ [] then
    if ¬args.drop_constants then
      .error (constantsErrorMsg const_cols)
    else
      .ok { args with
        predictors := args.predictors.filter (fun c => c ∉ const_cols),
        covariates := args.covariates.filter (fun c => c ∉ const_cols),
        dependents := args.dependents.filter (fun c => c ∉ const_cols) }
  else
    .ok args

/-- How the analysis stage of `run_pipeline` ends: normally, with an
exception carrying a message, or with a `KeyboardInterrupt`. -/
inductive AnalysisOutcome where
  | ok
  | err : String → AnalysisOutcome
  | interrupt
deriving DecidableEq

/-- What `run_pipeline` reports for the analysis stage. -/
inductive PipelineReport where
  | success
  | interruptedWarning
  | failureError : String → PipelineReport
deriving DecidableEq

/-- The observable effect of `run_pipeline`'s try/except/finally block
(pipeline.py lines 32-42). -/
structure PipelineEffect where
  cleanup_ran : Bool
  report : PipelineReport
  reraised : Bool
deriving DecidableEq

/-- Embeds the control flow of `run_pipeline` (pipeline.py lines 17-42):
`try:` run the analysis; `except KeyboardInterrupt:` log a warning;
`except Exception as e:` log an error and re-`raise`; `finally:`
`_cleanup_ipc(config)`.  The `finally` clause runs on every path, so the
cleanup flag is true in every case. -/
def run_pipeline : AnalysisOutcome → PipelineEffect
  | .ok => ⟨true, .success, false⟩
  | .interrupt => ⟨true, .interruptedWarning, false⟩
  | .err e => ⟨true, .failureError e, true⟩

/-- The resolved role lists of a `MASConfig`. -/
structure ConfigColumns where
  predictor_columns : List String
  dependent_columns : List String
  covariate_columns : List String
deriving DecidableEq

/-- Embeds `MASConfig._assert_unique_column_sets` (config.py lines
107-118): raise when any two of the three resolved role lists share a
name (Python `set(a) & set(b)` truthiness). -/
def assert_unique_column_sets (c : ConfigColumns) : Except String Unit :=
  if c.predictor_columns.any (fun x => x ∈ c.dependent_columns) then
    .error "Predictor and dependent columns must be unique"
  else if c.predictor_columns.any (fun x => x ∈ c.covariate_columns) then
    .error "Predictor and covariate columns must be unique"
  else if c.dependent_columns.any (fun x => x ∈ c.covariate_columns) then
    .error "Dependent and covariate columns must be unique"
  else
    .ok ()

/-- Embeds `MASConfig.__post_init__` on already-resolved role lists: the
disjointness assertion runs at construction, before any analysis, so a
configuration value exists only if `assert_unique_column_sets` passed
(`_validate_io` and `_parse_column_lists` are I/O-dependent resolution,
external to this model, which starts from the resolved lists). -/
def mkMASConfig (preds deps covs : List String) : Except String ConfigColumns :=
  let c : ConfigColumns := ⟨preds, deps, covs⟩
  match assert_unique_column_sets c with
  | .error e => .error e
  | .ok _ => .ok c

/-- Binary-model configuration with minimum case count 1. -/
def binaryMin1 : AnalysisConfig := ⟨false, 1, .firth⟩

/-- Two projected rows for a binary task: one with a null predictor and a
case dependent, one fully observed control. -/
def frameMixedNull : TaskFrame :=
  ⟨[], [⟨none, some 1, []⟩, ⟨some 0, some 0, []⟩]⟩

/-- Two fully observed rows, one case and one control: a viable binary
subset at minimum count 1. -/
def frameViable : TaskFrame :=
  ⟨[], [⟨some 1, some 1, []⟩, ⟨some 0, some 0, []⟩]⟩

/-- Two fully observed rows that are both cases. -/
def frameAllCases : TaskFrame :=
  ⟨[], [⟨some 1, some 1, []⟩, ⟨some 1, some 1, []⟩]⟩

/-- C1: in `_run_single_association` the fitness validation runs on the
frame *before* `drop_nulls([predictor, dependent])` (analysis.py line 84
versus line 87), so the counts that decide Skipped versus viable are
pre-drop counts.  On `frameMixedNull` with minimum case count 1 the
validation declares the task viable with cases = 1, controls = 1,
total_n = 2, although the post-drop subset has height 1 and case count 0
and would be skipped with "Insufficient case count (0 cases)."; the row
the code produces records the pre-drop counts. -/
theorem c1_validation_runs_before_null_drop :
    dictGet (validate_data_structure frameMixedNull "p" "d" binaryMin1
        (default_schema .firth)) "failed_reason" = some (.str "nan") ∧
    dictGet (validate_data_structure frameMixedNull "p" "d" binaryMin1
        (default_schema .firth)) "cases" = some (.int 1) ∧
    dictGet (validate_data_structure frameMixedNull "p" "d" binaryMin1
        (default_schema .firth)) "total_n" = some (.int 2) ∧
    (dropNullsPD frameMixedNull).height = 1 ∧
    caseCountOf (dropNullsPD frameMixedNull) = 0 ∧
    dictGet (validate_data_structure (dropNullsPD frameMixedNull) "p" "d"
        binaryMin1 (default_schema .firth)) "failed_reason"
      = some (.str "Insufficient case count (0 cases).") ∧
    dictGet (run_single_association frameMixedNull "p" "d" binaryMin1
        (default_schema .firth) (fun _ => .ok ⟨1, 1, 1, some 1, 1, 1⟩))
        "cases" = some (.int 1) := by
  decide

/-- C2 counterexample: a viable binary task whose solver raises records
the solver's message as `failed_reason` while the count fields keep their
real computed values — `cases = 1`, not the `-9` sentinel — so sentinel
values and real computed values co-occur in the same failed row. -/
theorem c2_failed_row_keeps_real_counts :
    dictGet (run_single_association frameViable "p" "d" binaryMin1
        (default_schema .firth) (fun _ => .error "boom")) "failed_reason"
      = some (.str "boom") ∧
    dictGet (run_single_association frameViable "p" "d" binaryMin1
        (default_schema .firth) (fun _ => .error "boom")) "cases"
      = some (.int 1) ∧
    dictGet (run_single_association frameViable "p" "d" binaryMin1
        (default_schema .firth) (fun _ => .error "boom")) "total_n"
      = some (.int 2) ∧
    FieldVal.int 1 ≠ FieldVal.int (-9) := by
  decide

/-- C3 counterexample: with configured minimum case count 1, a subset
whose case count equals its total row count is skipped with reason
"Insufficient control count (0 controls)." — the control-count branch of
`_check_case_counts` fires before the all-cases branch, so the reason is
not "All observations are cases.". -/
theorem c3_all_cases_reason_mismatch :
    caseCountOf frameAllCases = (frameAllCases.height : Int) ∧
    (check_case_counts frameAllCases 1).viable = false ∧
    (check_case_counts frameAllCases 1).message
      = "Insufficient control count (0 controls)." ∧
    (check_case_counts frameAllCases 1).message
      ≠ "All observations are cases." := by
  decide

/-- C4: for the binary models the sentinel default dict of `_get_schema`
has exactly the declared `pl.Struct` field set, but for the linear model
it has the key "cases" (value -9) instead of the declared
"n_observations"; consequently a skipped linear row (here: empty data)
carries the default key set and lacks the observation-count field that
the declared fixed schema requires. -/
theorem c4_linear_default_schema_mismatch :
    dictKeys (default_schema .firth) = polarsSchemaKeys .firth ∧
    dictKeys (default_schema .logistic) = polarsSchemaKeys .logistic ∧
    dictKeys (default_schema .linear) ≠ polarsSchemaKeys .linear ∧
    "n_observations" ∈ polarsSchemaKeys .linear ∧
    "n_observations" ∉ dictKeys (default_schema .linear) ∧
    "cases" ∈ dictKeys (default_schema .linear) ∧
    "cases" ∉ polarsSchemaKeys .linear ∧
    dictKeys (run_single_association ⟨[], []⟩ "p" "d" ⟨true, 1, .linear⟩
        (default_schema .linear) (fun _ => .error "unused"))
      = dictKeys (default_schema .linear) := by
  decide

/-- Result row with p-value 1, predictor "a". -/
def rowTieA : Dict := [("predictor", .str "a"), ("pval", .fval 1)]

/-- Result row with p-value 1, predictor "b". -/
def rowTieB : Dict := [("predictor", .str "b"), ("pval", .fval 1)]

/-- C6 counterexample: `sort("pval")` is called without
`maintain_order=True`, so its contract only guarantees a sorted
permutation.  For the two-row table `[rowTieA, rowTieB]` with equal
p-values — already in task-generation order — the reversed table is also
a valid sort output: tie order among equal p-values is not preserved and
re-sorting an already sorted table need not leave it unchanged. -/
theorem c6_tie_order_not_guaranteed :
    IsPolarsSortPval [rowTieA, rowTieB] [rowTieB, rowTieA] ∧
    IsPolarsSortPval [rowTieA, rowTieB] [rowTieA, rowTieB] ∧
    ([rowTieB, rowTieA] : List Dict) ≠ [rowTieA, rowTieB] := by
  decide

/-- Dataset with a single all-null column "c". -/
def allNullData : NamedData := [("c", [none, none])]

/-- C7 counterexample: an all-null column has distinct non-null count 0,
which `check_for_constants` does not flag (the filter tests `== 1`, not
`<= 1`): with drop-constants enabled the column stays in its role list,
and with drop-constants disabled no fatal error is raised — neither of
the behaviours the claim requires for a count ≤ 1 column happens. -/
theorem c7_all_null_column_not_flagged :
    distinctNonNullCount (colOf allNullData "c") = 0 ∧
    check_for_constants allNullData ⟨[], ["c"], [], true⟩
      = .ok ⟨[], ["c"], [], true⟩ ∧
    check_for_constants allNullData ⟨[], ["c"], [], false⟩
      = .ok ⟨[], ["c"], [], false⟩ := by
  exact ⟨by decide, by rfl, by rfl⟩

/-- C8: the cleanup of the temporary IPC snapshot runs on every exit path
of `run_pipeline`'s try/except/finally — normal completion, run-level
exception and user interrupt; the exception is re-raised (and only it),
and an interrupt is reported as a warning, distinct from a run-level
failure report. -/
theorem c8_cleanup_unconditional (o : AnalysisOutcome) :
    (run_pipeline o).cleanup_ran = true ∧
    ((run_pipeline o).reraised = true ↔ ∃ e, o = .err e) ∧
    ((run_pipeline o).report = .interruptedWarning ↔ o = .interrupt) ∧
    (∀ e, o = .err e →
      (run_pipeline o).report = .failureError e ∧ (run_pipeline o).reraised = true) := by
  cases o <;> simp [run_pipeline]

/-- C8 witness: concrete exit paths of `run_pipeline`. -/
theorem c8_cleanup_unconditional_witness :
    (run_pipeline (.err "disk full")).cleanup_ran = true ∧
    (run_pipeline (.err "disk full")).reraised = true ∧
    (run_pipeline .interrupt).cleanup_ran = true ∧
    (run_pipeline .interrupt).report = .interruptedWarning :=
  ⟨(c8_cleanup_unconditional (.err "disk full")).1,
   ((c8_cleanup_unconditional (.err "disk full")).2.2.2 "disk full" rfl).2,
   (c8_cleanup_unconditional .interrupt).1,
   (c8_cleanup_unconditional .interrupt).2.2.1.mpr rfl⟩

/-- C9: a configuration whose resolved predictor, dependent and covariate
lists share any column name fails construction with a fatal error (the
disjointness assertion runs in `__post_init__`, before any analysis), and
a configuration that constructs successfully has pairwise disjoint role
lists. -/
theorem c9_role_lists_disjoint (preds deps covs : List String) :
    ((∃ x, (x ∈ preds ∧ x ∈ deps) ∨ (x ∈ preds ∧ x ∈ covs) ∨ (x ∈ deps ∧ x ∈ covs)) →
      ∃ e, mkMASConfig preds deps covs = .error e) ∧
    (∀ c, mkMASConfig preds deps covs = .ok c →
      c.predictor_columns.Disjoint c.dependent_columns ∧
      c.predictor_columns.Disjoint c.covariate_columns ∧
      c.dependent_columns.Disjoint c.covariate_columns) := by
  constructor
  · rintro ⟨x, hx⟩
    unfold mkMASConfig assert_unique_column_sets
    dsimp only
    split_ifs with h1 h2 h3
    · exact ⟨_, rfl⟩
    · exact ⟨_, rfl⟩
    · exact ⟨_, rfl⟩
    · exfalso
      simp only [List.any_eq_true, decide_eq_true_eq, not_exists, not_and] at h1 h2 h3
      rcases hx with ⟨h, h'⟩ | ⟨h, h'⟩ | ⟨h, h'⟩
      · exact h1 x h h'
      · exact h2 x h h'
      · exact h3 x h h'
  · intro c hc
    unfold mkMASConfig assert_unique_column_sets at hc
    dsimp only at hc
    split_ifs at hc with h1 h2 h3
    injection hc with h
    subst h
    simp only [List.any_eq_true, decide_eq_true_eq, not_exists, not_and] at h1 h2 h3
    exact ⟨fun a ha hb => h1 a ha hb, fun a ha hb => h2 a ha hb,
           fun a ha hb => h3 a ha hb⟩

/-- C9 witness: an overlapping configuration fails, a disjoint one
constructs with disjoint role lists. -/
theorem c9_role_lists_disjoint_witness :
    (∃ e, mkMASConfig ["age"] ["age"] ["sex"] = Except.error e) ∧
    (ConfigColumns.predictor_columns ⟨["a"], ["b"], ["c"]⟩).Disjoint
      (ConfigColumns.dependent_columns ⟨["a"], ["b"], ["c"]⟩) :=
  ⟨(c9_role_lists_disjoint ["age"] ["age"] ["sex"]).1
      ⟨"age", Or.inl ⟨by decide, by decide⟩⟩,
   ((c9_role_lists_disjoint ["a"] ["b"] ["c"]).2 ⟨["a"], ["b"], ["c"]⟩ (by rfl)).1⟩

/-- Length of the predictor-major task grid. -/
theorem taskGrid_length (predictors dependents : List String) :
    (taskGrid predictors dependents).length
      = predictors.length * dependents.length := by
  induction predictors with
  | nil => simp [taskGrid]
  | cons p ps ih =>
      simp only [taskGrid, List.flatMap_cons, List.length_append,
        List.length_map, List.length_cons] at *
      rw [ih]
      ring

/-- C5: a solver exception on a viable task is caught by
`_run_single_association` and recorded in that task's row as the
`failed_reason` message, and the run still produces one row for every
task of the grid, with the failing task's row among them. -/
theorem c5_solver_errors_isolated (predictors dependents : List String)
    (frameOf : String → String → TaskFrame) (config : AnalysisConfig)
    (schema : Dict) (reg_func : TaskFrame → Except String RegResult)
    (p d e : String)
    (hmem : (p, d) ∈ taskGrid predictors dependents)
    (hviable : dictGetD (validate_data_structure (frameOf p d) p d config schema)
        "failed_reason" (.str "nan") = .str "nan")
    (herr : reg_func (drop_constant_covariates (dropNullsPD (frameOf p d)))
        = .error e) :
    (run_associations_rows predictors dependents frameOf config schema reg_func).length
        = predictors.length * dependents.length ∧
    run_single_association (frameOf p d) p d config schema reg_func
        ∈ run_associations_rows predictors dependents frameOf config schema reg_func ∧
    dictGet (run_single_association (frameOf p d) p d config schema reg_func)
        "failed_reason" = some (.str e) := by
  refine ⟨?_, ?_, ?_⟩
  · simp only [run_associations_rows, List.length_map]
    exact taskGrid_length predictors dependents
  · exact List.mem_map_of_mem _ hmem
  · unfold run_single_association
    rw [if_neg (by simp [hviable])]
    dsimp only
    rw [herr]
    simp only [dictUpdate, List.foldl_cons, List.foldl_nil]
    exact dictGet_set_self _ _ _

/-- C5 witness: a one-task run whose solver raises "Singular matrix"
records that message and still yields one row. -/
theorem c5_solver_errors_isolated_witness :
    dictGet (run_single_association frameViable "p" "d" binaryMin1
        (default_schema .firth) (fun _ => .error "Singular matrix"))
        "failed_reason" = some (.str "Singular matrix") ∧
    (run_associations_rows ["p"] ["d"] (fun _ _ => frameViable) binaryMin1
        (default_schema .firth) (fun _ => .error "Singular matrix")).length = 1 :=
  have h := c5_solver_errors_isolated ["p"] ["d"] (fun _ _ => frameViable)
    binaryMin1 (default_schema .firth) (fun _ => .error "Singular matrix")
    "p" "d" "Singular matrix" (by decide) (by decide) (by rfl)
  ⟨h.2.2, h.1⟩

/-- C3 (amended): `_check_case_counts` skips with "Insufficient case
count (…)." when cases are below the minimum and with "Insufficient
control count (…)." when controls are; because the control-count branch
precedes the all-cases branch, a subset whose cases equal its total rows
is skipped with "Insufficient control count (0 controls)." whenever the
configured minimum is positive, and the "All observations are cases."
reason occurs only when the minimum is ≤ 0.  A non-viable result is
recorded by `_validate_data_structure` as the row's `failed_reason`. -/
theorem c3_amended_skip_reasons (f : TaskFrame) (m : Int) :
    (caseCountOf f < m →
      (check_case_counts f m).viable = false ∧
      (check_case_counts f m).message
        = s!"Insufficient case count ({caseCountOf f} cases).") ∧
    (m ≤ caseCountOf f → (f.height : Int) - caseCountOf f < m →
      (check_case_counts f m).viable = false ∧
      (check_case_counts f m).message
        = s!"Insufficient control count ({(f.height : Int) - caseCountOf f} controls).") ∧
    (0 < m → m ≤ caseCountOf f → caseCountOf f = (f.height : Int) →
      (check_case_counts f m).viable = false ∧
      (check_case_counts f m).message
        = "Insufficient control count (0 controls).") ∧
    (m ≤ 0 → caseCountOf f = (f.height : Int) →
      (check_case_counts f m).viable = false ∧
      (check_case_counts f m).message = "All observations are cases.") ∧
    (∀ (p d : String) (mk : ModelKind), f.height ≠ 0 →
      (check_case_counts f m).viable = false →
      dictGet (validate_data_structure f p d ⟨false, m, mk⟩ (default_schema mk))
          "failed_reason"
        = some (.str (check_case_counts f m).message)) := by
  refine ⟨?_, ?_, ?_, ?_, ?_⟩
  · intro h1
    unfold check_case_counts
    rw [if_pos h1]
    exact ⟨rfl, rfl⟩
  · intro h1 h2
    unfold check_case_counts
    rw [if_neg (by omega), if_pos h2]
    exact ⟨rfl, rfl⟩
  · intro h0 h1 h2
    unfold check_case_counts
    rw [if_neg (by omega), if_pos (by omega)]
    refine ⟨rfl, ?_⟩
    dsimp only
    rw [show (f.height : Int) - caseCountOf f = 0 by omega]
    rfl
  · intro h0 h1
    have hnn : (0 : Int) ≤ caseCountOf f := by rw [h1]; positivity
    unfold check_case_counts
    rw [if_neg (by omega), if_neg (by omega), if_pos h1]
    exact ⟨rfl, rfl⟩
  · intro p d mk hh hv
    unfold validate_data_structure
    rw [if_neg (by simpa [TaskFrame.height] using hh)]
    dsimp only
    rw [hv]
    simp only [Bool.false_eq_true, not_false_eq_true, if_true,
      dictUpdate, List.foldl_cons, List.foldl_nil]
    exact dictGet_set_self _ _ _

/-- C3 witness: the amended skip reasons at concrete subsets. -/
theorem c3_amended_skip_reasons_witness :
    (check_case_counts frameAllCases 1).viable = false ∧
    (check_case_counts frameAllCases 1).message
      = "Insufficient control count (0 controls)." ∧
    (check_case_counts frameViable 5).message
      = s!"Insufficient case count ({caseCountOf frameViable} cases)." ∧
    dictGet (validate_data_structure frameAllCases "p" "d" ⟨false, 1, .firth⟩
        (default_schema .firth)) "failed_reason"
      = some (.str (check_case_counts frameAllCases 1).message) :=
  have h3 := (c3_amended_skip_reasons frameAllCases 1).2.2.1
    (by decide) (by decide) (by decide)
  have h1 := (c3_amended_skip_reasons frameViable 5).1 (by decide)
  have h5 := (c3_amended_skip_reasons frameAllCases 1).2.2.2.2 "p" "d" .firth
    (by decide) h3.1
  ⟨h3.1, h3.2, h1.2, h5⟩

/-- C7 (amended): `check_for_constants` flags the selected columns whose
distinct non-null count equals exactly 1 (an all-null column, count 0, is
not flagged); when any are flagged and drop-constants is disabled it
raises a fatal error whose message names all offending columns, and when
drop-constants is enabled it removes the flagged columns from every role
list (predictors, covariates, dependents) — the dataset's columns
themselves are not dropped, only the role lists are rewritten. -/
theorem c7_amended_constant_pruning (data : NamedData) (args : RoleArgs) :
    (∀ c, c ∈ constant_columns data args.selected_columns ↔
      (c ∈ args.selected_columns ∧ distinctNonNullCount (colOf data c) = 1)) ∧
    (constant_columns data args.selected_columns ≠ [] →
      args.drop_constants = false →
      check_for_constants data args
        = .error (constantsErrorMsg (constant_columns data args.selected_columns))) ∧
    (args.drop_constants = true → ∀ args',
      check_for_constants data args = .ok args' →
      ∀ c ∈ constant_columns data args.selected_columns,
        c ∉ args'.predictors ∧ c ∉ args'.covariates ∧ c ∉ args'.dependents) ∧
    (constant_columns data args.selected_columns = [] →
      check_for_constants data args = .ok args) := by
  refine ⟨?_, ?_, ?_, ?_⟩
  · intro c
    simp [constant_columns, List.mem_filter]
  · intro hne hdrop
    unfold check_for_constants
    rw [if_pos (by simpa using hne), if_pos (by simp [hdrop])]
  · intro hdrop args' hok c hc
    unfold check_for_constants at hok
    by_cases hne : constant_columns data args.selected_columns = []
    · rw [hne] at hc
      cases hc
    · rw [if_pos (by simpa using hne), if_neg (by simp [hdrop])] at hok
      injection hok with h
      subst h
      refine ⟨?_, ?_, ?_⟩ <;>
        · intro hmem
          rcases List.mem_filter.mp hmem with ⟨-, hdec⟩
          exact absurd hc (by simpa using hdec)
  · intro hempty
    unfold check_for_constants
    rw [if_neg (by simpa using hempty)]

/-- Dataset with a constant column "k" (one non-null value) and a
variable column "x". -/
def constData : NamedData := [("k", [some 3, some 3, none]), ("x", [some 1, some 2])]

/-- C7 witness: with drop-constants disabled the error names "k"; with it
enabled "k" is removed from the covariate role list. -/
theorem c7_amended_constant_pruning_witness :
    check_for_constants constData ⟨["x"], ["k"], [], false⟩
      = .error (constantsErrorMsg ["k"]) ∧
    ("k" ∉ (⟨["x"], [], [], true⟩ : RoleArgs).predictors ∧
     "k" ∉ (⟨["x"], [], [], true⟩ : RoleArgs).covariates ∧
     "k" ∉ (⟨["x"], [], [], true⟩ : RoleArgs).dependents) :=
  ⟨(c7_amended_constant_pruning constData ⟨["x"], ["k"], [], false⟩).2.1
      (by decide) rfl,
   (c7_amended_constant_pruning constData ⟨["x"], ["k"], [], true⟩).2.2.1
      rfl ⟨["x"], [], [], true⟩ (by rfl) "k" (by decide)⟩

/-- C10: a task-subset covariate column with exactly one distinct
non-null value and at least one null has `n_unique = 2` (null counts as a
distinct value), so the task-local `_drop_constant_covariates` pass
retains it in the design matrix, while the global `check_for_constants`
pass, which counts only distinct non-null values, computes count 1 and
classifies the same column as constant. -/
theorem c10_local_pruning_counts_null (f : TaskFrame) (i : Nat) (v : Int)
    (hi : i < f.covNames.length)
    (hnull : none ∈ covColumn f i)
    (hsome : some v ∈ covColumn f i)
    (hone : ∀ x ∈ (covColumn f i).filterMap id, x = v) :
    nUnique (covColumn f i) = 2 ∧
    f.covNames.getD i "" ∈ (drop_constant_covariates f).covNames ∧
    distinctNonNullCount (covColumn f i) = 1 ∧
    (∀ name : String, name ∈ constant_columns [(name, covColumn f i)] [name]) := by
  have hmem : ∀ x ∈ covColumn f i, x = none ∨ x = some v := by
    intro x hx
    cases x with
    | none => exact Or.inl rfl
    | some w =>
        refine Or.inr ?_
        have hw : w ∈ (covColumn f i).filterMap id :=
          List.mem_filterMap.mpr ⟨some w, hx, rfl⟩
        rw [hone w hw]
  have hfin : (covColumn f i).toFinset = ({none, some v} : Finset Cell) := by
    ext x
    simp only [List.mem_toFinset, Finset.mem_insert, Finset.mem_singleton]
    constructor
    · intro hx
      exact hmem x hx
    · rintro (rfl | rfl)
      · exact hnull
      · exact hsome
  have h2 : nUnique (covColumn f i) = 2 := by
    have := List.card_toFinset (covColumn f i)
    rw [hfin] at this
    simp only [nUnique]
    rw [← this]
    rw [Finset.card_insert_of_not_mem (by simp), Finset.card_singleton]
  have hfin1 : ((covColumn f i).filterMap id).toFinset = ({v} : Finset Int) := by
    ext x
    simp only [List.mem_toFinset, Finset.mem_singleton]
    constructor
    · intro hx
      exact hone x hx
    · intro hx
      rw [hx]
      exact List.mem_filterMap.mpr ⟨some v, hsome, rfl⟩
  have h1 : distinctNonNullCount (covColumn f i) = 1 := by
    have := List.card_toFinset ((covColumn f i).filterMap id)
    rw [hfin1] at this
    simp only [distinctNonNullCount]
    rw [← this, Finset.card_singleton]
  refine ⟨h2, ?_, h1, ?_⟩
  · have hkeep : i ∈ (List.range f.covNames.length).filter
        (fun j => 1 < nUnique (covColumn f j)) := by
      rw [List.mem_filter]
      exact ⟨List.mem_range.mpr hi, by simp [h2]⟩
    exact List.mem_map_of_mem _ hkeep
  · intro name
    simp [constant_columns, colOf, List.find?, h1]

/-- Frame with one covariate "z" that takes the single non-null value 5
and one null. -/
def frameHalfNullCov : TaskFrame :=
  ⟨["z"], [⟨some 1, some 1, [some 5]⟩, ⟨some 0, some 0, [none]⟩]⟩

/-- C10 witness: the covariate "z" of `frameHalfNullCov` is retained by
the task-local pass and classified constant by the global pass. -/
theorem c10_local_pruning_counts_null_witness :
    nUnique (covColumn frameHalfNullCov 0) = 2 ∧
    "z" ∈ (drop_constant_covariates frameHalfNullCov).covNames ∧
    distinctNonNullCount (covColumn frameHalfNullCov 0) = 1 :=
  have h := c10_local_pruning_counts_null frameHalfNullCov 0 5
    (by decide) (by decide) (by decide) (by decide)
  ⟨h.1, h.2.1, h.2.2.1⟩

/-- C6 (amended): any table satisfying the contract of the final
`sort("pval")` over the aggregated task rows is a permutation of those
rows that is non-decreasing in p-value with NaN p-values last (every row
at or after a NaN row is NaN), and the sorted table itself satisfies the
sort contract again, so a re-sort is permitted to return it unchanged;
since the sort is invoked without `maintain_order=True`, the order of
rows with equal p-values — and hence literal idempotence — is not
guaranteed. -/
theorem c6_amended_sorted_output (predictors dependents : List String)
    (frameOf : String → String → TaskFrame) (config : AnalysisConfig)
    (schema : Dict) (reg_func : TaskFrame → Except String RegResult)
    (output : List Dict)
    (h : IsPolarsSortPval
      (run_associations_rows predictors dependents frameOf config schema reg_func)
      output) :
    (run_associations_rows predictors dependents frameOf config schema reg_func).Perm
      output ∧
    output.Pairwise (fun a b => pvalLeB a b = true) ∧
    (∀ i j : Fin output.length, i < j →
      pvalOf (output.get i) = none → pvalOf (output.get j) = none) ∧
    IsPolarsSortPval output output := by
  obtain ⟨hp, hs⟩ := h
  refine ⟨hp, hs, ?_, List.Perm.refl _, hs⟩
  intro i j hij hnone
  have hle := List.pairwise_iff_get.mp hs i j hij
  unfold pvalLeB at hle
  rw [hnone] at hle
  cases hj : pvalOf (output.get j) with
  | none => rfl
  | some q =>
      rw [hj] at hle
      simp at hle

/-- C6 witness: a one-task run is its own valid sort output. -/
theorem c6_amended_sorted_output_witness :
    (run_associations_rows ["p"] ["d"] (fun _ _ => frameViable) binaryMin1
        (default_schema .firth) (fun _ => .ok ⟨1, 1, 1, some 1, 1, 1⟩)).Perm
      (run_associations_rows ["p"] ["d"] (fun _ _ => frameViable) binaryMin1
        (default_schema .firth) (fun _ => .ok ⟨1, 1, 1, some 1, 1, 1⟩)) ∧
    (run_associations_rows ["p"] ["d"] (fun _ _ => frameViable) binaryMin1
        (default_schema .firth) (fun _ => .ok ⟨1, 1, 1, some 1, 1, 1⟩)).Pairwise
      (fun a b => pvalLeB a b = true) :=
  have h := c6_amended_sorted_output ["p"] ["d"] (fun _ _ => frameViable)
    binaryMin1 (default_schema .firth) (fun _ => .ok ⟨1, 1, 1, some 1, 1, 1⟩)
    (run_associations_rows ["p"] ["d"] (fun _ _ => frameViable) binaryMin1
      (default_schema .firth) (fun _ => .ok ⟨1, 1, 1, some 1, 1, 1⟩))
    (by decide)
  ⟨h.1, h.2.1⟩

/-- Python `dict.update` with keys disjoint from `k` leaves `d[k]` alone. -/
theorem dictGet_update_not_mem (d new : Dict) (k : String)
    (h : k ∉ dictKeys new) :
    dictGet (dictUpdate d new) k = dictGet d k := by
  induction new generalizing d with
  | nil => rfl
  | cons kv rest ih =>
      simp only [dictKeys, List.map_cons, List.mem_cons, not_or] at h
      simp only [dictUpdate, List.foldl_cons]
      rw [show List.foldl (fun acc kv => dictSet acc kv.1 kv.2)
            (dictSet d kv.1 kv.2) rest
          = dictUpdate (dictSet d kv.1 kv.2) rest from rfl]
      rw [ih (dictSet d kv.1 kv.2) (by simpa [dictKeys] using h.2)]
      exact dictGet_set_ne _ _ _ _ (fun hh => h.1 hh.symm)

/-- Fields outside the keys `_validate_data_structure` may touch are
passed through from the default schema dict. -/
theorem validate_preserves_key (df : TaskFrame) (p d : String)
    (config : AnalysisConfig) (sch : Dict) (k : String)
    (h : k ∉ (["predictor", "dependent", "failed_reason", "cases",
      "controls", "total_n", "n_observations"] : List String)) :
    dictGet (validate_data_structure df p d config sch) k = dictGet sch k := by
  have h' : k ≠ "predictor" ∧ k ≠ "dependent" ∧ k ≠ "failed_reason" ∧
      k ≠ "cases" ∧ k ≠ "controls" ∧ k ≠ "total_n" ∧ k ≠ "n_observations" := by
    simpa using h
  unfold validate_data_structure
  dsimp only
  split_ifs <;> (apply dictGet_update_not_mem; simp [dictKeys]; tauto)

/-- The keys a regression-function result dict can contain. -/
theorem regResultDict_keys (r : RegResult) (k : String)
    (hk : k ∈ dictKeys (regResultDict r)) :
    k ∈ (["pval", "beta", "se", "OR", "ci_low", "ci_high"] : List String) := by
  cases h : r.orVal <;>
    · simp only [regResultDict, h, dictKeys] at hk
      simp at hk
      simp
      tauto

/-- A `_run_single_association` row whose `failed_reason` is a real
message (≠ "nan") took the skip or the exception path, so every field
outside the touched keys keeps its default-schema value. -/
theorem run_single_failed_preserves (df : TaskFrame) (p d : String)
    (config : AnalysisConfig) (sch : Dict)
    (reg_func : TaskFrame → Except String RegResult) (m : String)
    (hm : dictGet (run_single_association df p d config sch reg_func)
        "failed_reason" = some (.str m))
    (hne : m ≠ "nan") (k : String)
    (hk : k ∉ (["predictor", "dependent", "failed_reason", "equation",
      "cases", "controls", "total_n", "n_observations"] : List String)) :
    dictGet (run_single_association df p d config sch reg_func) k
      = dictGet sch k := by
  have hk7 : k ∉ (["predictor", "dependent", "failed_reason", "cases",
      "controls", "total_n", "n_observations"] : List String) := by
    simp only [List.mem_cons, not_or] at hk ⊢
    tauto
  unfold run_single_association at hm ⊢
  by_cases hcond : dictGetD (validate_data_structure df p d config sch)
      "failed_reason" (.str "nan") ≠ .str "nan"
  · rw [if_pos hcond]
    exact validate_preserves_key df p d config sch k hk7
  · rw [if_neg hcond] at hm ⊢
    dsimp only at hm ⊢
    cases hreg : reg_func (drop_constant_covariates (dropNullsPD df)) with
    | ok r =>
        exfalso
        rw [hreg] at hm
        dsimp only at hm
        rw [dictGet_update_not_mem] at hm
        · push_neg at hcond
          rw [dictGetD, hm] at hcond
          simp only [Option.getD_some] at hcond
          exact hne (by injection hcond)
        · intro hmem
          simp only [dictKeys, List.map_append, List.mem_append] at hmem
          rcases hmem with hmem | hmem
          · simp at hmem
          · have := regResultDict_keys r "failed_reason" hmem
            simp at this
    | error e =>
        dsimp only
        rw [dictGet_update_not_mem]
        · exact validate_preserves_key df p d config sch k hk7
        · simp only [dictKeys, List.map_cons, List.map_nil, List.mem_cons,
            List.mem_singleton, not_or]
          simp only [List.mem_cons, not_or] at hk
          tauto

/-- C2 (amended): in a binary-model row whose failure-reason field holds
a real message (a skip reason or a solver message), the statistical
fields pval, beta, se, OR, ci_low, ci_high stay at the NaN sentinel and
converged stays false; the count fields (cases/controls/total_n) are not
covered — they may hold the real counts computed during validation, so
sentinel and real values can co-occur in a failed row. -/
theorem c2_amended_failed_rows (df : TaskFrame) (p d : String)
    (config : AnalysisConfig) (mk : ModelKind) (hmk : mk ≠ .linear)
    (reg_func : TaskFrame → Except String RegResult) (m : String)
    (hm : dictGet (run_single_association df p d config (default_schema mk)
        reg_func) "failed_reason" = some (.str m))
    (hne : m ≠ "nan") :
    dictGet (run_single_association df p d config (default_schema mk) reg_func)
        "pval" = some .fnan ∧
    dictGet (run_single_association df p d config (default_schema mk) reg_func)
        "beta" = some .fnan ∧
    dictGet (run_single_association df p d config (default_schema mk) reg_func)
        "se" = some .fnan ∧
    dictGet (run_single_association df p d config (default_schema mk) reg_func)
        "OR" = some .fnan ∧
    dictGet (run_single_association df p d config (default_schema mk) reg_func)
        "ci_low" = some .fnan ∧
    dictGet (run_single_association df p d config (default_schema mk) reg_func)
        "ci_high" = some .fnan ∧
    dictGet (run_single_association df p d config (default_schema mk) reg_func)
        "converged" = some (.bool false) := by
  cases mk with
  | linear => exact absurd rfl hmk
  | firth =>
      refine ⟨?_, ?_, ?_, ?_, ?_, ?_, ?_⟩ <;>
        · rw [run_single_failed_preserves df p d config _ reg_func m hm hne _
            (by decide)]
          rfl
  | logistic =>
      refine ⟨?_, ?_, ?_, ?_, ?_, ?_, ?_⟩ <;>
        · rw [run_single_failed_preserves df p d config _ reg_func m hm hne _
            (by decide)]
          rfl

/-- C2 witness: a concrete failed binary row keeps NaN statistics. -/
theorem c2_amended_failed_rows_witness :
    dictGet (run_single_association frameViable "p" "d" binaryMin1
        (default_schema .firth) (fun _ => .error "boom")) "pval"
      = some .fnan ∧
    dictGet (run_single_association frameViable "p" "d" binaryMin1
        (default_schema .firth) (fun _ => .error "boom")) "OR"
      = some .fnan :=
  have h := c2_amended_failed_rows frameViable "p" "d" binaryMin1 .firth
    (by decide) (fun _ => .error "boom") "boom" (by decide) (by decide)
  ⟨h.1, h.2.2.2.1⟩
